import Mathlib

/-!
Shallow embedding of the SecuredBank ai_service authentication core
(src/src/services/auth_services.py, src/src/middleware/auth_middleware.py,
src/src/controllers/auth_controllers.py, config/settings.py), together with
theorems settling the frozen claims about it.

Conventions of the embedding:
* Python dict payloads built by the service are modelled by the `Payload`
  structure; the `roles` key is optional (refresh tokens are created without
  it), hence `Option (List String)`; `payload.get ("roles", [])` becomes
  `(p.roles).getD []`.
* A JWT string is either a token signed with some key (`TokenStr.signed`) or
  an arbitrary non-JWT / tampered string (`TokenStr.garbage`).  PyJWT's
  `jwt.decode` is modelled by `jwtDecode`: signature check first
  (`DecodeError`/`InvalidTokenError` on mismatch or garbage), then the `exp`
  claim (PyJWT raises `ExpiredSignatureError` iff `exp <= now`, with `now`
  in whole unix seconds).
* `raise HTTPException(status_code, detail)` becomes
  `Except.error (HTTPError.mk status_code detail)`.
* `datetime.utcnow()` is the injected `now : Nat` argument (unix seconds for
  the token layer; the rate limiter works in microseconds, see below).
* The Mongo `users` collection is a `List User` in insertion order;
  `find_one` is `List.find?`; `insert_one` appends.  Operations that mutate
  the collection return the new list alongside their result.
-/

set_option autoImplicit false

/-- Application settings, from config/settings.py (the module imported by the
auth service as core.config).  Only the JWT fields are consumed by the code
under study; the signing algorithm is fixed to HS256 and is folded into the
signature model of `jwtDecode`. -/
structure Settings where
  jwt_secret_key : String := "your_jwt_secret_key_here"
  jwt_algorithm : String := "HS256"
  access_token_expire_minutes : Nat := 30
  refresh_token_expire_days : Nat := 7
  deriving Repr, DecidableEq

/-- The cached settings object returned by get_settings(). -/
def settings : Settings := {}

/-- Claim payload of a token produced or decoded in this service: the dicts
built in auth_services.py carry sub, optionally roles, exp and type. -/
structure Payload where
  sub : String
  roles : Option (List String)
  exp : Nat
  type : String
  deriving Repr, DecidableEq

/-- A token string: either a JWT signed with a key (carrying its payload), or
any other string (malformed, truncated or signed by an unknown party). -/
inductive TokenStr where
  | signed (p : Payload) (key : String)
  | garbage (s : String)
  deriving Repr, DecidableEq

/-- Exceptions of the PyJWT library relevant to this code. -/
inductive JwtError where
  | expiredSignature
  | invalidToken
  deriving Repr, DecidableEq

/-- Model of jwt.decode(token, key, algorithms=[alg]): signature verification
first (any garbage string or key mismatch raises InvalidTokenError), then the
exp claim is validated: PyJWT raises ExpiredSignatureError iff exp <= now. -/
def jwtDecode (tok : TokenStr) (key : String) (now : Nat) : Except JwtError Payload :=
  match tok with
  | .garbage _ => .error .invalidToken
  | .signed p k =>
    if k = key then
      if p.exp ≤ now then .error .expiredSignature else .ok p
    else .error .invalidToken

/-- fastapi.HTTPException, reduced to the status code and detail used here. -/
structure HTTPError where
  status : Nat
  detail : String
  deriving Repr, DecidableEq

def tokenExpiredMsg : String := "Token has expired"
def invalidTokenMsg : String := "Invalid token"

namespace AuthService

/-- AuthService.verify_token (auth_services.py lines 100-118): decode with
the configured secret; ExpiredSignatureError becomes 401, InvalidTokenError
becomes 403; the payload is returned as is, with no inspection of its type
claim. -/
def verify_token (token : TokenStr) (now : Nat) : Except HTTPError Payload :=
  match jwtDecode token settings.jwt_secret_key now with
  | .ok payload => .ok payload
  | .error .expiredSignature => .error ⟨401, tokenExpiredMsg⟩
  | .error .invalidToken => .error ⟨403, invalidTokenMsg⟩

end AuthService

namespace JWTBearer

/-- JWTBearer.verify_jwt (auth_middleware.py lines 49-66): same decoding and
error mapping as AuthService.verify_token, and likewise no type-claim check. -/
def verify_jwt (token : TokenStr) (now : Nat) : Except HTTPError Payload :=
  match jwtDecode token settings.jwt_secret_key now with
  | .ok payload => .ok payload
  | .error .expiredSignature => .error ⟨401, tokenExpiredMsg⟩
  | .error .invalidToken => .error ⟨403, invalidTokenMsg⟩

end JWTBearer

/-- Exception raised by passlib when a hash string cannot be identified as
belonging to any configured scheme (a ValueError subclass). -/
inductive PasslibError where
  | unknownHash
  deriving Repr, DecidableEq

def bcryptPrefix2b : String := "$2b$"
def bcryptPrefix2a : String := "$2a$"
def bcryptPrefix2y : String := "$2y$"

/-- Boolean test that the first list is an initial segment of the second. -/
def charListLeads : List Char → List Char → Bool
  | [], _ => true
  | _ :: _, [] => false
  | a :: as, b :: bs => a == b && charListLeads as bs

/-- Modelled from the passlib bcrypt backend behind
CryptContext(schemes=["bcrypt"]): a hash string is identified as bcrypt iff it
carries a recognized bcrypt prefix. -/
def isBcryptHash (h : String) : Bool :=
  charListLeads bcryptPrefix2b.toList h.toList ||
    charListLeads bcryptPrefix2a.toList h.toList ||
    charListLeads bcryptPrefix2y.toList h.toList

def bcryptSaltTag : String := "$2b$12$fixedsalt."

/-- Modelled from the bcrypt backend: hashing embeds the algorithm tag, cost
and salt followed by a digest of the password; the digest is abstracted as the
password itself under a fixed salt, which keeps hashing deterministic and
injective, as the real function is for a fixed salt. -/
def bcryptHash (p : String) : String := bcryptSaltTag ++ p

/-- Modelled from passlib CryptContext.verify: identify the scheme of the hash
string, raising UnknownHashError (a ValueError) when none matches; otherwise
recompute under the embedded salt and compare digests. -/
def pwdContextVerify (p h : String) : Except PasslibError Bool :=
  if isBcryptHash h then .ok (h == bcryptHash p) else .error .unknownHash

/-- Modelled from passlib CryptContext.hash: a fresh bcrypt hash of the
password, carrying the bcrypt tag. -/
def pwdContextHash (p : String) : String := bcryptHash p

/-- A document of the Mongo users collection, as built by
AuthService.create_user: the ObjectId string assigned on insert is modelled as
the insertion index rendered as a string; timestamps are unix seconds. -/
structure User where
  id : String
  username : String
  email : String
  hashed_password : String
  roles : List String
  is_active : Bool
  created_at : Nat
  updated_at : Nat
  deriving Repr, DecidableEq

namespace AuthService

/-- AuthService.verify_password (auth_services.py lines 21-24): a direct
passthrough to pwd_context.verify, with no exception handling of its own. -/
def verify_password (plain_password : String) (hashed_password : String) :
    Except PasslibError Bool :=
  pwdContextVerify plain_password hashed_password

/-- AuthService.get_password_hash (auth_services.py lines 26-29). -/
def get_password_hash (password : String) : String :=
  pwdContextHash password

def duplicateUserMsg : String := "Username or email already registered"

/-- AuthService.create_user (auth_services.py lines 31-57) acting on the users
collection: if find_one matches the username or the email of an existing user,
raise HTTPException(400, duplicate message) and leave the collection unchanged;
otherwise hash the password, insert the document with the given roles (or the
default singleton user role when roles is None), is_active True and both
timestamps at now, and return it with its assigned id. -/
def create_user (store : List User) (username email password : String)
    (roles : Option (List String)) (now : Nat) :
    Except HTTPError User × List User :=
  let roles2 := roles.getD ["user"]
  match store.find? (fun u => u.username == username || u.email == email) with
  | some _ => (.error ⟨400, duplicateUserMsg⟩, store)
  | none =>
    let user : User :=
      { id := toString store.length
        username := username
        email := email
        hashed_password := get_password_hash password
        roles := roles2
        is_active := true
        created_at := now
        updated_at := now }
    (.ok user, store ++ [user])

/-- AuthService.authenticate_user (auth_services.py lines 59-67): find_one on
username or email equal to the identifier; None when absent; None when the
password check returns false.  The passlib exception of verify_password is not
caught here and propagates. -/
def authenticate_user (store : List User) (username password : String) :
    Except PasslibError (Option User) :=
  match store.find? (fun u => u.username == username || u.email == username) with
  | none => .ok none
  | some user =>
    match verify_password password user.hashed_password with
    | .error e => .error e
    | .ok ok => if ok then .ok (some user) else .ok none

end AuthService

/-- Request body of POST /register, after pydantic validation
(models/user_models resolved to dto/User.py UserCreate lines 30-33): the roles
field defaults to the singleton user role and no validator constrains its
contents. -/
structure UserCreate where
  username : String
  email : String
  password : String
  roles : List String := ["user"]
  deriving Repr, DecidableEq

/-- Public user fields returned by POST /register
(auth_controllers.py lines 34-40). -/
structure UserResponse where
  id : String
  username : String
  email : String
  roles : List String
  is_active : Bool
  deriving Repr, DecidableEq

/-- register_user (auth_controllers.py lines 17-47): call
AuthService.create_user with the validated request fields (pydantic always
supplies a roles list, so the None default of create_user is never taken on
this path), re-raise its HTTPException unchanged, and on success return the
public fields of the created user. -/
def register_user (store : List User) (user_data : UserCreate) (now : Nat) :
    Except HTTPError UserResponse × List User :=
  match AuthService.create_user store user_data.username user_data.email
      user_data.password (some user_data.roles) now with
  | (.error e, s) => (.error e, s)
  | (.ok user, s) =>
    (.ok { id := user.id
           username := user.username
           email := user.email
           roles := user.roles
           is_active := user.is_active }, s)

/-- The data dict passed to the token creators: sub always; roles only when
the caller issues an access token (login and refresh pass the stored roles),
never for refresh tokens. -/
structure TokenData where
  sub : String
  roles : Option (List String)
  deriving Repr, DecidableEq

/-- The token-pair dict returned by login and refresh. -/
structure TokenPair where
  access_token : TokenStr
  refresh_token : TokenStr
  token_type : String
  deriving Repr, DecidableEq

def refreshExpiredMsg : String := "Refresh token has expired"
def invalidRefreshMsg : String := "Invalid refresh token"
def invalidTypeMsg : String := "Invalid token type"
def userNotFoundMsg : String := "User not found"
def incorrectLoginMsg : String := "Incorrect username or password"
def inactiveUserMsg : String := "Inactive user"
def insufficientMsg : String := "Insufficient permissions"

namespace AuthService

/-- AuthService.create_access_token (auth_services.py lines 69-84): copy the
data, set exp to now plus the supplied delta, or plus the configured
access-token lifetime when no delta is given, set type to access, and sign
with the configured secret. -/
def create_access_token (data : TokenData) (now : Nat) (expires_delta : Option Nat) :
    TokenStr :=
  let expire :=
    match expires_delta with
    | some d => now + d
    | none => now + settings.access_token_expire_minutes * 60
  TokenStr.signed
    { sub := data.sub, roles := data.roles, exp := expire, type := "access" }
    settings.jwt_secret_key

/-- AuthService.create_refresh_token (auth_services.py lines 86-97): exp is
now plus the configured refresh lifetime in days; type refresh. -/
def create_refresh_token (data : TokenData) (now : Nat) : TokenStr :=
  TokenStr.signed
    { sub := data.sub
      roles := data.roles
      exp := now + settings.refresh_token_expire_days * 86400
      type := "refresh" }
    settings.jwt_secret_key

/-- AuthService.refresh_token (auth_services.py lines 120-167): decode the
presented token (ExpiredSignatureError to 401, InvalidTokenError to 403),
reject a payload whose type claim is not refresh with 403, re-fetch the user
by the sub claim (404 when absent), and issue a fresh access token bound to
the roles currently stored for the user together with a fresh refresh token.
No check of the stored is_active flag appears on this path. -/
def refresh_token (store : List User) (tok : TokenStr) (now : Nat) :
    Except HTTPError TokenPair :=
  match jwtDecode tok settings.jwt_secret_key now with
  | .error .expiredSignature => .error ⟨401, refreshExpiredMsg⟩
  | .error .invalidToken => .error ⟨403, invalidRefreshMsg⟩
  | .ok payload =>
    if payload.type ≠ "refresh" then .error ⟨403, invalidTypeMsg⟩
    else
      match store.find? (fun u => u.username == payload.sub) with
      | none => .error ⟨404, userNotFoundMsg⟩
      | some user =>
        .ok { access_token :=
                create_access_token { sub := user.username, roles := some user.roles } now none
              refresh_token :=
                create_refresh_token { sub := user.username, roles := none } now
              token_type := "bearer" }

end AuthService

/-- The token pair assembled by the success branch of AuthService.refresh_token
for a re-fetched user. -/
def refreshResultPair (u : User) (now : Nat) : TokenPair :=
  { access_token :=
      AuthService.create_access_token { sub := u.username, roles := some u.roles } now none
    refresh_token :=
      AuthService.create_refresh_token { sub := u.username, roles := none } now
    token_type := "bearer" }

/-- Python exceptions that can escape the body of the refresh endpoint. -/
inductive PyExc where
  | httpExc (e : HTTPError)
  | attributeError (msg : String)
  deriving Repr, DecidableEq

/-- Message of the AttributeError raised when AuthService.refresh_tokens is
looked up; CPython renders the two names wrapped in single quotation marks. -/
def attributeErrorMsg : String := "type object AuthService has no attribute refresh_tokens"

/-- str(e) for the exceptions above: HTTPException renders as status: detail,
AttributeError as its message. -/
def pyExcStr : PyExc → String
  | .httpExc e => toString e.status ++ ": " ++ e.detail
  | .attributeError m => m

/-- refresh_access_token (auth_controllers.py lines 87-100): the handler body
evaluates AuthService.refresh_tokens(refresh_token), but the service class
defines no attribute refresh_tokens (its method is named refresh_token), so
the lookup raises AttributeError before any token logic runs; the blanket
except Exception handler then converts every exception, this one included,
into HTTPException(401, str(e)).  The store, token and clock arguments are
those the intended call would have consumed. -/
def refresh_access_token (store : List User) (tok : TokenStr) (now : Nat) :
    Except HTTPError TokenPair :=
  let _ := (store, tok, now)
  let body : Except PyExc TokenPair := .error (.attributeError attributeErrorMsg)
  match body with
  | .ok pair => .ok pair
  | .error e => .error ⟨401, pyExcStr e⟩

/-- str(e) of the passlib UnknownHashError. -/
def passlibErrStr : PasslibError → String
  | .unknownHash => "hash could not be identified"

/-- login_for_access_token (auth_controllers.py lines 49-85): authenticate the
form credentials; on None raise the single 401 with detail incorrect username
or password (whether the identifier was unknown or the password wrong); reject
inactive users with 400; otherwise issue an access token carrying the stored
roles, with the configured expiry passed explicitly, plus a refresh token.  A
passlib exception escaping authenticate_user is uncaught here and surfaces as
the framework 500. -/
def login_for_access_token (store : List User) (username password : String) (now : Nat) :
    Except HTTPError TokenPair :=
  match AuthService.authenticate_user store username password with
  | .error e => .error ⟨500, passlibErrStr e⟩
  | .ok none => .error ⟨401, incorrectLoginMsg⟩
  | .ok (some user) =>
    if !user.is_active then .error ⟨400, inactiveUserMsg⟩
    else
      .ok { access_token :=
              AuthService.create_access_token { sub := user.username, roles := some user.roles }
                now (some (settings.access_token_expire_minutes * 60))
            refresh_token :=
              AuthService.create_refresh_token { sub := user.username, roles := none } now
            token_type := "bearer" }

namespace JWTBearer

/-- Claims-checking segment of JWTBearer.__call__ (auth_middleware.py lines
35-47), entered once HTTPBearer has supplied Bearer-scheme credentials: verify
the JWT, and when the instance was constructed with a non-empty required_roles
list, raise HTTPException(403) unless at least one required role occurs in the
roles claim (an absent roles claim reads as the empty list).  On success the
payload is stored on request.state.user as the authorization context for the
handler; the model returns it. -/
def call (required_roles : List String) (tok : TokenStr) (now : Nat) :
    Except HTTPError Payload :=
  match verify_jwt tok now with
  | .error e => .error e
  | .ok payload =>
    if required_roles.isEmpty then .ok payload
    else if required_roles.any (fun role => (payload.roles.getD []).contains role) then
      .ok payload
    else .error ⟨403, insufficientMsg⟩

end JWTBearer

/-- Per-process rate limiter state (auth_middleware.py lines 107-111): the
configured quota (times) and window (seconds), and the requests dict mapping a
client address to its recorded request instants.  Instants are modelled in
microseconds, the resolution of datetime.now(). -/
structure RateLimiter where
  times : Nat
  seconds : Nat
  requests : List (String × List Nat)
  deriving Repr, DecidableEq

/-- Dictionary read on the requests map. -/
def dictGet (m : List (String × List Nat)) (k : String) : Option (List Nat) :=
  (m.find? (fun kv => kv.1 == k)).map (fun kv => kv.2)

/-- Dictionary write on the requests map. -/
def dictSet : List (String × List Nat) → String → List Nat → List (String × List Nat)
  | [], k, v => [(k, v)]
  | kv :: rest, k, v => if kv.1 == k then (k, v) :: rest else kv :: dictSet rest k v

/-- Python timedelta .seconds attribute of current_time - t, both instants in
microseconds with current_time at or after t: the seconds field of the
normalized (days, seconds, microseconds) decomposition, that is whole seconds
modulo one day, NOT the total duration in seconds. -/
def tdSecondsAttr (now t : Nat) : Nat := ((now - t) / 1000000) % 86400

/-- RateLimiter.__call__ (auth_middleware.py lines 113-134): initialize the
client entry when absent, keep only the instants whose timedelta .seconds
attribute is below the window and store that pruned list, then answer 429
(modelled as false) when the retained count has reached the quota, else record
now and admit (true), forwarding to the inner application. -/
def RateLimiter.call (rl : RateLimiter) (client_ip : String) (now : Nat) :
    Bool × RateLimiter :=
  let ts := (dictGet rl.requests client_ip).getD []
  let kept := ts.filter (fun t => tdSecondsAttr now t < rl.seconds)
  if rl.times ≤ kept.length then
    (false, { rl with requests := dictSet rl.requests client_ip kept })
  else
    (true, { rl with requests := dictSet rl.requests client_ip (kept ++ [now]) })

/-- Modelled from the spec (section 4.5): the retained instants are those with
now - t strictly below window_seconds (stale instants, now - t at or beyond
the window, are pruned).  Instants in microseconds, the window in seconds. -/
def specRetained (ts : List Nat) (now window_seconds : Nat) : List Nat :=
  ts.filter (fun t => now - t < window_seconds * 1000000)

/-- Modelled from the spec (section 4.5): an incoming request is admitted iff
the count of retained instants is strictly below max_requests. -/
def specAdmit (ts : List Nat) (now window_seconds max_requests : Nat) : Bool :=
  (specRetained ts now window_seconds).length < max_requests

/-- Concrete refresh-token payload for the subject alice: well-formed,
type refresh, expiring at unix second 100. -/
def pRefAlice : Payload := { sub := "alice", roles := none, exp := 100, type := "refresh" }

/-- Concrete stored user alice, as create_user would have inserted her. -/
def aliceUser : User :=
  { id := "0"
    username := "alice"
    email := "alice@bank.com"
    hashed_password := bcryptSaltTag ++ "CorrectHorse1"
    roles := ["user"]
    is_active := true
    created_at := 0
    updated_at := 0 }

/-- A users collection holding only alice. -/
def storeAlice : List User := [aliceUser]

/-- Concrete registration request that explicitly asks for the admin role. -/
def regEve : UserCreate :=
  { username := "eve", email := "eve@bank.com", password := "Str0ngPass1", roles := ["admin"] }

def emptyHash : String := ""
def pwX : String := "pw"

/-- Concrete stored user bob, active, with a well-formed password hash. -/
def bobUser : User :=
  { id := "0"
    username := "bob"
    email := "bob@bank.com"
    hashed_password := bcryptSaltTag ++ "Hunter2aA"
    roles := ["user"]
    is_active := true
    created_at := 0
    updated_at := 0 }

def storeBob : List User := [bobUser]

/-- Concrete refresh-token payload for bob, unexpired at now = 0. -/
def pRefBob : Payload := { sub := "bob", roles := none, exp := 100, type := "refresh" }

/-- The refresh token for bob signed with the configured secret. -/
def refTokBob : TokenStr := TokenStr.signed pRefBob settings.jwt_secret_key

/-- Concrete stored user carol, DEACTIVATED (is_active false). -/
def carolUser : User :=
  { id := "0"
    username := "carol"
    email := "carol@bank.com"
    hashed_password := bcryptSaltTag ++ "Pass1word"
    roles := ["user"]
    is_active := false
    created_at := 0
    updated_at := 0 }

def storeCarol : List User := [carolUser]

/-- Concrete refresh-token payload for carol, unexpired at now = 0. -/
def pRefCarol : Payload := { sub := "carol", roles := none, exp := 100, type := "refresh" }

/-- Concrete stored user dave whose CURRENT roles are the singleton admin list;
his refresh token below was issued before the role change. -/
def daveUser : User :=
  { id := "0"
    username := "dave"
    email := "dave@bank.com"
    hashed_password := bcryptSaltTag ++ "Qwerty12Z"
    roles := ["admin"]
    is_active := true
    created_at := 0
    updated_at := 0 }

def storeDave : List User := [daveUser]

/-- Concrete refresh-token payload for dave, unexpired at now = 0. -/
def pRefDave : Payload := { sub := "dave", roles := none, exp := 100, type := "refresh" }

/-- Concrete access-token payload whose roles claim is the singleton user
list. -/
def pAccUserOnly : Payload :=
  { sub := "alice", roles := some ["user"], exp := 100, type := "access" }

/-- Concrete access-token payload whose roles claim holds admin and user. -/
def pAccAdminUser : Payload :=
  { sub := "alice", roles := some ["admin", "user"], exp := 100, type := "access" }

def adminOnly : List String := ["admin"]

/-- Concrete login identifiers for the indistinguishability witness. -/
def idUnknown : String := "mallory"
def pwWrong : String := "WrongPw1"

/-- Rate limiter with quota 1 per 60-second window and no recorded requests,
as constructed by RateLimiter(times=1, seconds=60). -/
def rlOne : RateLimiter := { times := 1, seconds := 60, requests := [] }

/-- One day in microseconds. -/
def usPerDay : Nat := 86400000000

def clientC : String := "c"

/-- Claim C1 counterexample: the token signed with the server key, of type
refresh (not access) and unexpired at now = 0, is accepted with its payload by
both AuthService.verify_token and JWTBearer.verify_jwt instead of failing with
a wrong-type error. -/
theorem C1_counterexample :
    pRefAlice.type ≠ "access" ∧ 0 < pRefAlice.exp ∧
    AuthService.verify_token (TokenStr.signed pRefAlice settings.jwt_secret_key) 0 =
      Except.ok pRefAlice ∧
    JWTBearer.verify_jwt (TokenStr.signed pRefAlice settings.jwt_secret_key) 0 =
      Except.ok pRefAlice := by
  refine ⟨by decide, by decide, ?_, ?_⟩ <;> rfl

/-- Claim C1, amended: neither AuthService.verify_token nor JWTBearer.verify_jwt
inspects the type claim: every token signed with the configured secret and
unexpired at now is accepted with its full payload, whatever its type; in
particular a valid refresh token presented where an access token is expected
is accepted rather than rejected. -/
theorem C1_no_type_check (p : Payload) (now : Nat) (hexp : now < p.exp) :
    AuthService.verify_token (TokenStr.signed p settings.jwt_secret_key) now =
      Except.ok p ∧
    JWTBearer.verify_jwt (TokenStr.signed p settings.jwt_secret_key) now =
      Except.ok p := by
  have hnle : ¬ p.exp ≤ now := Nat.not_le.mpr hexp
  constructor <;>
    simp [AuthService.verify_token, JWTBearer.verify_jwt, jwtDecode, hnle]

/-- Claim C1 witness: the amended theorem applied to the concrete unexpired
refresh-type payload pRefAlice at now = 0. -/
theorem C1_no_type_check_witness :
    AuthService.verify_token (TokenStr.signed pRefAlice settings.jwt_secret_key) 0 =
      Except.ok pRefAlice ∧
    JWTBearer.verify_jwt (TokenStr.signed pRefAlice settings.jwt_secret_key) 0 =
      Except.ok pRefAlice :=
  C1_no_type_check pRefAlice 0 (by decide)

/-- Claim C2: for every registration request whose username and email match no
stored user, register_user succeeds and both the public response and the
inserted user record carry exactly the caller-supplied roles list, whatever it
is: registration places no restriction on caller-chosen roles. -/
theorem C2_registration_keeps_roles (store : List User) (d : UserCreate) (now : Nat)
    (hfresh : store.find? (fun u => u.username == d.username || u.email == d.email) = none) :
    ∃ resp s2 u,
      register_user store d now = (Except.ok resp, s2) ∧
      resp.roles = d.roles ∧ s2 = store ++ [u] ∧ u.roles = d.roles := by
  simp only [register_user, AuthService.create_user, hfresh, Option.getD_some]
  exact ⟨_, _, _, rfl, rfl, rfl, rfl⟩

/-- Claim C2 witness: registering eve with roles equal to the singleton admin
list against the empty collection yields a user holding the admin role. -/
theorem C2_registration_keeps_roles_witness :
    ∃ resp s2 u,
      register_user [] regEve 0 = (Except.ok resp, s2) ∧
      resp.roles = ["admin"] ∧ s2 = [] ++ [u] ∧ u.roles = ["admin"] :=
  C2_registration_keeps_roles [] regEve 0 rfl

/-- Claim C5 counterexample: registering a second user with the username alice
while alice is stored fails with HTTP status 400, not 409, with the collection
unchanged: the duplicate branch of create_user raises
HTTPException(400, duplicate message). -/
theorem C5_counterexample :
    AuthService.create_user storeAlice aliceUser.username ("other@bank.com")
        ("Passw0rd1") none 0 =
      (Except.error ⟨400, AuthService.duplicateUserMsg⟩, storeAlice) ∧
    (400 : Nat) ≠ 409 := by
  exact ⟨rfl, by decide⟩

/-- Claim C5, amended: for every registration whose username or email equals
that of an already-stored user, create_user fails with HTTP status 400 and
detail duplicate message (not 409), and no new user record is inserted. -/
theorem C5_duplicate_is_400 (store : List User) (username email password : String)
    (roles : Option (List String)) (now : Nat) (u : User)
    (hdup : store.find? (fun v => v.username == username || v.email == email) = some u) :
    AuthService.create_user store username email password roles now =
      (Except.error ⟨400, AuthService.duplicateUserMsg⟩, store) := by
  simp only [AuthService.create_user, hdup]

/-- Claim C5 witness: the amended theorem applied to the concrete duplicate
registration of alice. -/
theorem C5_duplicate_is_400_witness :
    AuthService.create_user storeAlice ("alice") ("other@bank.com") ("Passw0rd1") none 0 =
      (Except.error ⟨400, AuthService.duplicateUserMsg⟩, storeAlice) :=
  C5_duplicate_is_400 storeAlice ("alice") ("other@bank.com") ("Passw0rd1") none 0
    aliceUser rfl

/-- Claim C9 counterexample: on the malformed hash string emptyHash, which no
configured scheme identifies, verify_password raises passlib UnknownHashError
(a ValueError) instead of returning false: the passthrough to
pwd_context.verify has no exception handling. -/
theorem C9_counterexample :
    AuthService.verify_password pwX emptyHash = Except.error PasslibError.unknownHash := by
  rfl

/-- Claim C9, amended: verify_password returns a boolean for every hash string
identified as bcrypt, but on a string not identifiable as any configured
scheme it propagates passlib UnknownHashError rather than returning false. -/
theorem C9_verify_password_behavior (p h : String) :
    (isBcryptHash h = true →
      ∃ b : Bool, AuthService.verify_password p h = Except.ok b) ∧
    (isBcryptHash h = false →
      AuthService.verify_password p h = Except.error PasslibError.unknownHash) := by
  constructor
  · intro hid
    exact ⟨h == bcryptHash p, by simp [AuthService.verify_password, pwdContextVerify, hid]⟩
  · intro hid
    simp [AuthService.verify_password, pwdContextVerify, hid]

/-- Claim C9 witness: the amended theorem applied on the identified-hash side
to the bcrypt-tagged string and on the malformed side to the empty string. -/
theorem C9_verify_password_behavior_witness :
    (∃ b : Bool, AuthService.verify_password pwX bcryptSaltTag = Except.ok b) ∧
    AuthService.verify_password pwX emptyHash = Except.error PasslibError.unknownHash :=
  ⟨(C9_verify_password_behavior pwX bcryptSaltTag).1 (by decide),
   (C9_verify_password_behavior pwX emptyHash).2 (by decide)⟩

/-- Claim C3 (code bug, evaluated): with quota 1 and a 60-second window, a
request from client c at instant 0 is admitted; a second request one full day
later is rejected by the code even though its only recorded instant is a day
stale, because the timedelta .seconds attribute wraps at 24 hours and the
stale instant is therefore not pruned; under the pruning rule of the spec that
client retains zero in-window instants and must be admitted.  A client whose
retained in-window count is below quota is thus rejected: a false positive. -/
theorem C3_false_positive :
    (rlOne.call clientC 0).1 = true ∧
    ((rlOne.call clientC 0).2.call clientC usPerDay).1 = false ∧
    specAdmit [0] usPerDay 60 1 = true := by
  exact ⟨rfl, rfl, rfl⟩

/-- Claim C4 (code bug, evaluated): for a well-signed, unexpired refresh token
of type refresh whose subject bob exists (and is active) in the store, the
service-level AuthService.refresh_token yields a fresh token pair, yet the
POST /token/refresh handler answers 401: it invokes the undefined attribute
AuthService.refresh_tokens and its blanket exception handler converts the
resulting AttributeError into HTTPException(401, str(e)); no request to this
endpoint can ever receive the 200 or 404 of the claim. -/
theorem C4_refresh_endpoint_always_401 :
    jwtDecode refTokBob settings.jwt_secret_key 0 = Except.ok pRefBob ∧
    pRefBob.type = "refresh" ∧
    storeBob.find? (fun u => u.username == pRefBob.sub) = some bobUser ∧
    bobUser.is_active = true ∧
    AuthService.refresh_token storeBob refTokBob 0 = Except.ok (refreshResultPair bobUser 0) ∧
    refresh_access_token storeBob refTokBob 0 = Except.error ⟨401, attributeErrorMsg⟩ := by
  exact ⟨rfl, rfl, rfl, rfl, rfl, rfl⟩

/-- Claim C6 counterexample: carol is stored with is_active false, yet
AuthService.refresh_token on her well-signed, unexpired refresh token of type
refresh succeeds and issues a new token pair instead of failing with a
subject-inactive error. -/
theorem C6_counterexample :
    carolUser.is_active = false ∧
    AuthService.refresh_token storeCarol (TokenStr.signed pRefCarol settings.jwt_secret_key) 0 =
      Except.ok (refreshResultPair carolUser 0) := by
  exact ⟨rfl, rfl⟩

/-- Claim C6, amended: the refresh flow performs no is_active check: for every
valid, unexpired refresh token of type refresh whose subject exists in the
store, AuthService.refresh_token issues the new token pair whatever the value
of the stored is_active flag, so in particular it succeeds for an inactive
subject rather than failing. -/
theorem C6_refresh_ignores_is_active (store : List User) (p : Payload) (now : Nat)
    (u : User) (hexp : now < p.exp) (htype : p.type = "refresh")
    (hfind : store.find? (fun v => v.username == p.sub) = some u) :
    AuthService.refresh_token store (TokenStr.signed p settings.jwt_secret_key) now =
      Except.ok (refreshResultPair u now) := by
  have hnle : ¬ p.exp ≤ now := Nat.not_le.mpr hexp
  simp [AuthService.refresh_token, jwtDecode, refreshResultPair, hnle, htype, hfind]

/-- Claim C6 witness: the amended theorem applied to the inactive concrete
user carol and her unexpired refresh token at now = 0. -/
theorem C6_refresh_ignores_is_active_witness :
    AuthService.refresh_token storeCarol (TokenStr.signed pRefCarol settings.jwt_secret_key) 0 =
      Except.ok (refreshResultPair carolUser 0) :=
  C6_refresh_ignores_is_active storeCarol pRefCarol 0 carolUser (by decide) rfl rfl

/-- Claim C7: for every valid, unexpired refresh token of type refresh whose
subject is currently stored as user u, the pair issued by
AuthService.refresh_token contains an access token whose roles claim is
exactly the roles stored for u at refresh time; the payload of the presented
token (which in this code carries no roles claim at all, so a fortiori any
roles embedded at issuance time) does not influence the new roles claim. -/
theorem C7_refresh_uses_current_roles (store : List User) (p : Payload) (now : Nat)
    (u : User) (hexp : now < p.exp) (htype : p.type = "refresh")
    (hfind : store.find? (fun v => v.username == p.sub) = some u) :
    ∃ q : Payload,
      AuthService.refresh_token store (TokenStr.signed p settings.jwt_secret_key) now =
        Except.ok (refreshResultPair u now) ∧
      (refreshResultPair u now).access_token = TokenStr.signed q settings.jwt_secret_key ∧
      q.roles = some u.roles ∧ q.sub = u.username ∧ q.type = "access" := by
  have hnle : ¬ p.exp ≤ now := Nat.not_le.mpr hexp
  refine ⟨_, ?_, rfl, rfl, rfl, rfl⟩
  simp [AuthService.refresh_token, jwtDecode, refreshResultPair, hnle, htype, hfind]

/-- Claim C7 witness: dave now holds the admin role while his refresh token
predates the change (and, like every refresh token of this code, embeds no
roles); the refreshed access token carries his current singleton admin roles
list. -/
theorem C7_refresh_uses_current_roles_witness :
    ∃ q : Payload,
      AuthService.refresh_token storeDave (TokenStr.signed pRefDave settings.jwt_secret_key) 0 =
        Except.ok (refreshResultPair daveUser 0) ∧
      (refreshResultPair daveUser 0).access_token = TokenStr.signed q settings.jwt_secret_key ∧
      q.roles = some ["admin"] ∧ q.sub = "dave" ∧ q.type = "access" :=
  C7_refresh_uses_current_roles storeDave pRefDave 0 daveUser (by decide) rfl rfl

/-- Claim C8: for every valid (well-signed, unexpired) access token with roles
claim S and required-role list R, the guard succeeds with the token payload
(subject and roles) whenever some element of R lies in S; when R is non-empty
and disjoint from S it fails with HTTP 403; and when R is empty every valid
access token is authorized. -/
theorem C8_role_intersection (p : Payload) (R : List String) (now : Nat)
    (hexp : now < p.exp) (htype : p.type = "access") :
    ((∃ r, r ∈ R ∧ r ∈ p.roles.getD []) →
      JWTBearer.call R (TokenStr.signed p settings.jwt_secret_key) now = Except.ok p) ∧
    (R ≠ [] → (∀ r ∈ R, r ∉ p.roles.getD []) →
      JWTBearer.call R (TokenStr.signed p settings.jwt_secret_key) now =
        Except.error ⟨403, insufficientMsg⟩) ∧
    (R = [] →
      JWTBearer.call R (TokenStr.signed p settings.jwt_secret_key) now = Except.ok p) := by
  have hnle : ¬ p.exp ≤ now := Nat.not_le.mpr hexp
  have hv : JWTBearer.verify_jwt (TokenStr.signed p settings.jwt_secret_key) now =
      Except.ok p := by
    simp [JWTBearer.verify_jwt, jwtDecode, hnle]
  refine ⟨?_, ?_, ?_⟩
  · rintro ⟨r, hrR, hrS⟩
    have hne : R.isEmpty = false := by
      cases R with
      | nil => cases hrR
      | cons a as => rfl
    simp [JWTBearer.call, hv, hne]
    exact ⟨r, hrR, hrS⟩
  · intro hne hdisj
    have hne2 : R.isEmpty = false := by
      cases R with
      | nil => exact absurd rfl hne
      | cons a as => rfl
    simp [JWTBearer.call, hv, hne2]
    exact hdisj
  · intro hR
    subst hR
    simp [JWTBearer.call, hv]

/-- Claim C8 witness: the theorem applied to concrete valid access tokens: with
required roles the admin singleton, a token whose roles claim is the user
singleton is rejected with 403 and a token whose roles claim holds admin and
user is accepted; with the empty required list the user-only token is
accepted. -/
theorem C8_role_intersection_witness :
    JWTBearer.call adminOnly (TokenStr.signed pAccUserOnly settings.jwt_secret_key) 0 =
      Except.error ⟨403, insufficientMsg⟩ ∧
    JWTBearer.call adminOnly (TokenStr.signed pAccAdminUser settings.jwt_secret_key) 0 =
      Except.ok pAccAdminUser ∧
    JWTBearer.call [] (TokenStr.signed pAccUserOnly settings.jwt_secret_key) 0 =
      Except.ok pAccUserOnly :=
  ⟨((C8_role_intersection pAccUserOnly adminOnly 0 (by decide) rfl).2.1
      (by decide) (by decide)),
   ((C8_role_intersection pAccAdminUser adminOnly 0 (by decide) rfl).1
      ⟨"admin", by decide, by decide⟩),
   ((C8_role_intersection pAccUserOnly [] 0 (by decide) rfl).2.2 rfl)⟩

/-- Claim C10: within one store, a login whose identifier matches no user and a
login whose identifier matches a stored user but whose password fails
verification both make authenticate_user return None, and both make the
POST /token handler produce the identical 401 response with detail incorrect
username or password, so the response does not reveal whether the username
exists. -/
theorem C10_login_indistinguishable (store : List User) (id1 pw1 id2 pw2 : String)
    (u : User) (now : Nat)
    (h1 : store.find? (fun v => v.username == id1 || v.email == id1) = none)
    (h2 : store.find? (fun v => v.username == id2 || v.email == id2) = some u)
    (hpw : AuthService.verify_password pw2 u.hashed_password = Except.ok false) :
    AuthService.authenticate_user store id1 pw1 = Except.ok none ∧
    AuthService.authenticate_user store id2 pw2 = Except.ok none ∧
    login_for_access_token store id1 pw1 now = Except.error ⟨401, incorrectLoginMsg⟩ ∧
    login_for_access_token store id2 pw2 now = Except.error ⟨401, incorrectLoginMsg⟩ := by
  have a1 : AuthService.authenticate_user store id1 pw1 = Except.ok none := by
    simp [AuthService.authenticate_user, h1]
  have a2 : AuthService.authenticate_user store id2 pw2 = Except.ok none := by
    simp [AuthService.authenticate_user, h2, hpw]
  exact ⟨a1, a2, by simp [login_for_access_token, a1],
         by simp [login_for_access_token, a2]⟩

/-- Claim C10 witness: against the store holding only bob, the unknown
identifier mallory and the known identifier bob with a wrong password both
yield None from authenticate_user and the same 401 response from the login
handler. -/
theorem C10_login_indistinguishable_witness :
    AuthService.authenticate_user storeBob idUnknown pwWrong = Except.ok none ∧
    AuthService.authenticate_user storeBob bobUser.username pwWrong = Except.ok none ∧
    login_for_access_token storeBob idUnknown pwWrong 0 =
      Except.error ⟨401, incorrectLoginMsg⟩ ∧
    login_for_access_token storeBob bobUser.username pwWrong 0 =
      Except.error ⟨401, incorrectLoginMsg⟩ :=
  C10_login_indistinguishable storeBob idUnknown pwWrong bobUser.username pwWrong
    bobUser 0 rfl rfl rfl
